import Mathlib

/-!
Verification of the Heleerra payment-gateway client
(src/examples/python/heleerra_api.py).

The embedding below translates the logic of the client into Lean: the
webhook signature verifier (HMAC-SHA256 over UTF-8 bytes, hex digest,
constant-time comparison), the webhook dispatcher (sandbox vs production
branches and the four per-status handlers), the payment-data validator,
and the constructor defaulting of the webhook secret.  HTTP transport and
logging are outside the embedding; handler invocations, which in the
source are logging-only stubs, are made observable as an explicit event
trace returned next to each result.  Machine words are Nat with explicit
reduction modulo 2^32.
-/

set_option maxRecDepth 200000

namespace Heleerra

/-- Truncate to a 32-bit word. -/
def w32 (n : Nat) : Nat := n % 4294967296

/-- Right rotation of a 32-bit word by n bits. -/
def rotr (n x : Nat) : Nat := w32 ((x >>> n) ||| (x <<< (32 - n)))

/-- The 64 SHA-256 round constants (FIPS 180-4), written in decimal. -/
def shaK : List Nat :=
  [1116352408, 1899447441, 3049323471, 3921009573, 961987163, 1508970993,
   2453635748, 2870763221, 3624381080, 310598401, 607225278, 1426881987,
   1925078388, 2162078206, 2614888103, 3248222580, 3835390401, 4022224774,
   264347078, 604807628, 770255983, 1249150122, 1555081692, 1996064986,
   2554220882, 2821834349, 2952996808, 3210313671, 3336571891, 3584528711,
   113926993, 338241895, 666307205, 773529912, 1294757372, 1396182291,
   1695183700, 1986661051, 2177026350, 2456956037, 2730485921, 2820302411,
   3259730800, 3345764771, 3516065817, 3600352804, 4094571909, 275423344,
   430227734, 506948616, 659060556, 883997877, 958139571, 1322822218,
   1537002063, 1747873779, 1955562222, 2024104815, 2227730452, 2361852424,
   2428436474, 2756734187, 3204031479, 3329325298]

/-- The SHA-256 initial hash state (FIPS 180-4). -/
def shaH0 : List Nat :=
  [0x6a09e667, 0xbb67ae85, 0x3c6ef372, 0xa54ff53a, 0x510e527f, 0x9b05688c, 0x1f83d9ab, 0x5be0cd19]

/-- SHA-256 padding: append 0x80, zero bytes up to 56 mod 64, then the
64-bit big-endian bit length. -/
def padMsg (msg : List Nat) : List Nat :=
  let len := msg.length
  let bitLen := len * 8
  let padZeros := (119 - (len % 64)) % 64
  msg ++ [0x80] ++ List.replicate padZeros 0 ++
    (List.range 8).map (fun i => (bitLen >>> ((7 - i) * 8)) % 256)

/-- Split a byte list into 64-byte blocks, with explicit fuel so the
recursion is structural; the fuel is an upper bound on the block count. -/
def toBlocksAux : Nat → List Nat → List (List Nat)
  | 0, _ => []
  | _, [] => []
  | n + 1, l => l.take 64 :: toBlocksAux n (l.drop 64)

/-- Split a byte list into 64-byte blocks. -/
def toBlocks (l : List Nat) : List (List Nat) := toBlocksAux l.length l

/-- Combine bytes into big-endian 32-bit words. -/
def bytesToWords : List Nat → List Nat
  | a :: b :: c :: d :: rest => (a * 16777216 + b * 65536 + c * 256 + d) :: bytesToWords rest
  | _ => []

/-- One step of the SHA-256 message-schedule extension. -/
def schedStep (ws : List Nat) : List Nat :=
  let i := ws.length
  let g := fun j => ws.getD j 0
  let s0 := rotr 7 (g (i - 15)) ^^^ rotr 18 (g (i - 15)) ^^^ (g (i - 15) >>> 3)
  let s1 := rotr 17 (g (i - 2)) ^^^ rotr 19 (g (i - 2)) ^^^ (g (i - 2) >>> 10)
  ws ++ [w32 (g (i - 16) + s0 + g (i - 7) + s1)]

/-- Extend the 16 message words of a block to the full 64-word schedule. -/
def schedule (ws : List Nat) : List Nat :=
  (List.range 48).foldl (fun acc _ => schedStep acc) ws

/-- One SHA-256 compression round; the state is the word list [a,b,c,d,e,f,g,h]
and kw is the round constant already added to the schedule word. -/
def compressRound (st : List Nat) (kw : Nat) : List Nat :=
  match st with
  | [a, b, c, d, e, f, g, h] =>
    let s1 := rotr 6 e ^^^ rotr 11 e ^^^ rotr 25 e
    let ch := (e &&& f) ^^^ ((e ^^^ 0xffffffff) &&& g)
    let temp1 := w32 (h + s1 + ch + kw)
    let s0 := rotr 2 a ^^^ rotr 13 a ^^^ rotr 22 a
    let maj := (a &&& b) ^^^ (a &&& c) ^^^ (b &&& c)
    let temp2 := w32 (s0 + maj)
    [w32 (temp1 + temp2), a, b, c, w32 (d + temp1), e, f, g]
  | _ => st

/-- Process one 64-byte block, updating the 8-word hash state. -/
def processBlock (H : List Nat) (block : List Nat) : List Nat :=
  let ws := schedule (bytesToWords block)
  let kws := List.zipWith (fun k w => w32 (k + w)) shaK ws
  let st := kws.foldl compressRound H
  List.zipWith (fun h x => w32 (h + x)) H st

/-- SHA-256 of a byte list, as a list of 32 bytes.  Models hashlib.sha256. -/
def sha256 (msg : List Nat) : List Nat :=
  let H := (toBlocks (padMsg msg)).foldl processBlock shaH0
  H.flatMap (fun wd => [(wd >>> 24) % 256, (wd >>> 16) % 256, (wd >>> 8) % 256, wd % 256])

/-- HMAC-SHA256 (RFC 2104) over byte lists, block size 64.  Models hmac.new
with digestmod hashlib.sha256. -/
def hmacSha256 (key msg : List Nat) : List Nat :=
  let key1 := if key.length > 64 then sha256 key else key
  let key64 := key1 ++ List.replicate (64 - key1.length) 0
  let ipad := key64.map (fun b => b ^^^ 0x36)
  let opad := key64.map (fun b => b ^^^ 0x5c)
  sha256 (opad ++ sha256 (ipad ++ msg))

/-- Lower-case hex digit for a value below 16. -/
def hexDigit (n : Nat) : Char := if n < 10 then Char.ofNat (48 + n) else Char.ofNat (87 + n)

/-- Two lower-case hex digits of a byte. -/
def byteToHex (b : Nat) : List Char := [hexDigit (b / 16), hexDigit (b % 16)]

/-- Lower-case hex rendering of a byte list; models the hexdigest method. -/
def bytesToHex (bs : List Nat) : String := String.mk (bs.flatMap byteToHex)

/-- UTF-8 encoding of one character, as bytes. -/
def utf8Bytes (c : Char) : List Nat :=
  let n := c.toNat
  if n < 0x80 then [n]
  else if n < 0x800 then [0xc0 ||| (n >>> 6), 0x80 ||| (n &&& 0x3f)]
  else if n < 0x10000 then
    [0xe0 ||| (n >>> 12), 0x80 ||| ((n >>> 6) &&& 0x3f), 0x80 ||| (n &&& 0x3f)]
  else
    [0xf0 ||| (n >>> 18), 0x80 ||| ((n >>> 12) &&& 0x3f),
     0x80 ||| ((n >>> 6) &&& 0x3f), 0x80 ||| (n &&& 0x3f)]

/-- UTF-8 bytes of a string; models str.encode with encoding utf-8. -/
def strBytes (s : String) : List Nat := s.data.flatMap utf8Bytes

/-- Hex HMAC-SHA256 digest of a payload string under a secret string: the
expected_signature computed at heleerra_api.py lines 197-201. -/
def hmacSha256Hex (secret payload : String) : String :=
  bytesToHex (hmacSha256 (strBytes secret) (strBytes payload))

/-- True when every character of the string is ASCII; models the condition
under which hmac.compare_digest accepts str arguments. -/
def strAscii (s : String) : Bool := s.data.all (fun c => c.toNat < 128)

/-- Models hmac.compare_digest on str arguments: ASCII-only strings compare
by equality (the timing-safe aspect is not observable in the embedding);
non-ASCII str arguments raise TypeError, modelled as the error branch. -/
def compare_digest (a b : String) : Except String Bool :=
  if strAscii a && strAscii b then .ok (a == b)
  else .error "TypeError: comparing strings with non-ASCII characters is not supported"

/-- Lower-casing of a string; models str.lower restricted to ASCII letters,
which is all the client compares it against. -/
def pyLower (s : String) : String := String.mk (s.data.map Char.toLower)

/-- Python truthiness of an optional string: None and the empty string are
falsy, which is what the source tests with the idiom of the form
if not self.webhook_secret. -/
def optStrFalsy : Option String → Bool
  | none => true
  | some s => s.isEmpty

/-- The client state fixed by the constructor (heleerra_api.py lines 41-46). -/
structure HeleerraAPI where
  base_url : String
  merchant_key : String
  api_key : String
  environment : String
  webhook_secret : Option String
  timeout : Nat
deriving DecidableEq

/-- The constructor (heleerra_api.py lines 29-56): lower-cases the
environment, defaults a falsy webhook secret to an environment-specific
value, and rejects environments other than sandbox and production. -/
def HeleerraAPI.init (merchant_key api_key environment : String)
    (webhook_secret : Option String) (timeout : Nat) : Except String HeleerraAPI :=
  let env := pyLower environment
  let ws := if optStrFalsy webhook_secret then
      some (if env == "sandbox" then "test_webhook_secret" else "webhook_secret")
    else webhook_secret
  if env != "sandbox" && env != "production" then
    .error "Environment must be either 'sandbox' or 'production'"
  else
    .ok { base_url := "https://heleerra.com", merchant_key := merchant_key,
          api_key := api_key, environment := env, webhook_secret := ws, timeout := timeout }

/-- The try-block of verify_webhook_signature (lines 196-209): compute the
hex HMAC-SHA256 digest and compare it to the supplied signature with
hmac.compare_digest; an error is a raised exception inside the block. -/
def HeleerraAPI.verifyAttempt (api : HeleerraAPI) (payload signature : String) :
    Except String Bool :=
  let expected_signature := hmacSha256Hex (api.webhook_secret.getD "") payload
  compare_digest expected_signature signature

/-- verify_webhook_signature (lines 181-213): false when no webhook secret
is configured; otherwise the comparison result, with any exception from the
try-block caught and turned into false. -/
def HeleerraAPI.verify_webhook_signature (api : HeleerraAPI) (payload signature : String) :
    Bool :=
  if optStrFalsy api.webhook_secret then false
  else
    match api.verifyAttempt payload signature with
    | .ok is_valid => is_valid
    | .error _ => false

/-- The webhook payload shape read by the handlers: a status field and a
nested data block with the transaction reference and the amount (all
optional, as Python dict.get accesses with defaults). -/
structure WebhookPayload where
  status : Option String := none
  data_ref_trx : Option String := none
  data_amount : Option Int := none
deriving DecidableEq

/-- Models json.dumps restricted to the webhook payload shape above, with
the default separators of json.dumps and insertion order status, data. -/
def json_dumps (p : WebhookPayload) : String :=
  let inner :=
    (match p.data_ref_trx with
     | some s => ["\"ref_trx\": \"" ++ s ++ "\""]
     | none => []) ++
    (match p.data_amount with
     | some n => ["\"amount\": " ++ toString n]
     | none => [])
  let fields :=
    (match p.status with
     | some s => ["\"status\": \"" ++ s ++ "\""]
     | none => []) ++
    (if inner.isEmpty then []
     else ["\"data\": \x7b" ++ String.intercalate ", " inner ++ "\x7d"])
  "\x7b" ++ String.intercalate ", " fields ++ "\x7d"

/-- Lookup in a string-valued header mapping with a default; models
dict.get on the headers dictionary. -/
def headersGet (headers : List (String × String)) (k dflt : String) : String :=
  match headers.find? (fun p => p.1 == k) with
  | some p => p.2
  | none => dflt

/-- Observable dispatch events: which branch the dispatcher entered and
which of the four per-status handlers it invoked.  The handlers are
logging-only stubs in the source, so invocation is the observable. -/
inductive WebhookEvent where
  | sandboxDispatch
  | productionDispatch
  | processCompletedPayment
  | processFailedPayment
  | processCancelledPayment
  | processExpiredPayment
deriving DecidableEq

/-- The result dictionary returned by the webhook entry points. -/
structure WebhookResult where
  status : String
  message : String
deriving DecidableEq

/-- The sandbox webhook handler (lines 248-266): reads the payload only for
logging and returns the fixed sandbox result, invoking no status handler. -/
def HeleerraAPI._handle_sandbox_webhook (_api : HeleerraAPI) (_payload : WebhookPayload) :
    WebhookResult × List WebhookEvent :=
  ({ status := "sandbox_processed", message := "Webhook processed in sandbox mode" },
   [.sandboxDispatch])

/-- The production webhook handler (lines 268-298): dispatches on the status
field (dict.get default unknown) to one of four status handlers, logs
unknown statuses, and returns the fixed processed result in every case. -/
def HeleerraAPI._handle_production_webhook (_api : HeleerraAPI) (payload : WebhookPayload) :
    WebhookResult × List WebhookEvent :=
  let status := payload.status.getD "unknown"
  let events : List WebhookEvent :=
    if status == "completed" then [.processCompletedPayment]
    else if status == "failed" then [.processFailedPayment]
    else if status == "cancelled" then [.processCancelledPayment]
    else if status == "expired" then [.processExpiredPayment]
    else []
  ({ status := "processed", message := "Webhook processed successfully" },
   .productionDispatch :: events)

/-- handle_webhook (lines 215-246): reads the signature and environment
headers, verifies the signature over the serialized payload, returns the
invalid-signature error without dispatching on failure, and otherwise
dispatches on the environment header. -/
def HeleerraAPI.handle_webhook (api : HeleerraAPI) (payload : WebhookPayload)
    (headers : List (String × String)) : WebhookResult × List WebhookEvent :=
  let signature := headersGet headers "x-signature" ""
  let environment := headersGet headers "x-environment" "production"
  if api.verify_webhook_signature (json_dumps payload) signature then
    if environment == "sandbox" then api._handle_sandbox_webhook payload
    else api._handle_production_webhook payload
  else
    ({ status := "error", message := "Invalid signature" }, [])

/-- A Python value as stored in the payment-data dictionary. -/
inductive PyValue where
  | vStr : String → PyValue
  | vInt : Int → PyValue
  | vFloat : Rat → PyValue
  | vNone : PyValue
deriving DecidableEq

/-- Python truthiness of a payment-data value. -/
def PyValue.truthy : PyValue → Bool
  | .vStr s => !s.isEmpty
  | .vInt n => n != 0
  | .vFloat q => q != 0
  | .vNone => false

/-- Whether the value is an int or a float; models isinstance against the
pair (int, float).  Floats are modelled as rationals: the validator only
compares them against 1.00, where rational and floating comparison agree. -/
def PyValue.isNumber : PyValue → Bool
  | .vInt _ => true
  | .vFloat _ => true
  | _ => false

/-- Numeric value of an int or float, as a rational. -/
def PyValue.numVal : PyValue → Rat
  | .vInt n => (n : Rat)
  | .vFloat q => q
  | _ => 0

/-- The exceptions the validator can raise. -/
inductive PyError where
  | valueError : String → PyError
  | typeError : String → PyError
  | attributeError : String → PyError
deriving DecidableEq

/-- Lookup in the payment-data dictionary; models the in-operator and
subscript access on a dict with string keys. -/
def dictLookup (d : List (String × PyValue)) (k : String) : Option PyValue :=
  match d.find? (fun p => p.1 == k) with
  | some p => some p.2
  | none => none

/-- True when the field is absent from the dictionary or its value is
falsy: the condition rejected by the required-fields loop (line 305). -/
def requiredFieldMissing (pd : List (String × PyValue)) (f : String) : Bool :=
  match dictLookup pd f with
  | none => true
  | some v => !v.truthy

/-- The required-fields loop (lines 302-306): the first absent-or-falsy
field raises ValueError naming it. -/
def requiredFieldCheck (pd : List (String × PyValue)) : List String → Except PyError Unit
  | [] => .ok ()
  | f :: rest =>
    match dictLookup pd f with
    | none => .error (.valueError ("Required field '" ++ f ++ "' is missing or empty"))
    | some v =>
      if v.truthy then requiredFieldCheck pd rest
      else .error (.valueError ("Required field '" ++ f ++ "' is missing or empty"))

/-- Models str.isalpha restricted to ASCII letters: nonempty and every
character alphabetic. -/
def pyIsAlpha (s : String) : Bool := !s.isEmpty && s.data.all (fun c => c.isAlpha)

/-- Models str.startswith: character-wise prefix test. -/
def strStartsWith (s pre : String) : Bool := pre.data.isPrefixOf s.data

/-- The URL-fields loop (lines 317-321): a present truthy URL field must be
a string starting with http; on a non-string the startswith attribute
access raises AttributeError. -/
def urlFieldCheck (pd : List (String × PyValue)) : List String → Except PyError Unit
  | [] => .ok ()
  | f :: rest =>
    match dictLookup pd f with
    | none => urlFieldCheck pd rest
    | some v =>
      if v.truthy then
        match v with
        | .vStr s =>
          if strStartsWith s "http" then urlFieldCheck pd rest
          else .error (.valueError (f ++ " must be a valid URL"))
        | _ => .error (.attributeError "object has no attribute startswith")
      else urlFieldCheck pd rest

/-- True when every provided URL field is absent, falsy, or a string
starting with http: the condition under which the URL loop passes. -/
def urlFieldOkOne (pd : List (String × PyValue)) (f : String) : Bool :=
  match dictLookup pd f with
  | none => true
  | some v =>
    !v.truthy ||
      (match v with
       | .vStr s => strStartsWith s "http"
       | _ => false)

/-- All four URL fields pass the condition of urlFieldOkOne. -/
def urlFieldsOk (pd : List (String × PyValue)) : Bool :=
  ["success_redirect", "failure_url", "cancel_redirect", "ipn_url"].all (urlFieldOkOne pd)

/-- _validate_payment_data (lines 300-321): required fields, then the
amount bound, then the currency shape, then the URL fields, raising on the
first violation. -/
def _validate_payment_data (pd : List (String × PyValue)) : Except PyError Unit :=
  match requiredFieldCheck pd ["payment_amount", "currency_code", "ref_trx"] with
  | .error e => .error e
  | .ok _ =>
    let amount := (dictLookup pd "payment_amount").getD .vNone
    if ¬ amount.isNumber ∨ amount.numVal < 1 then
      .error (.valueError "Payment amount must be a number and at least 1.00")
    else
      match (dictLookup pd "currency_code").getD .vNone with
      | .vStr c =>
        if c.length ≠ 3 ∨ ¬ pyIsAlpha c then
          .error (.valueError "Currency code must be a 3-letter code (e.g., USD)")
        else
          urlFieldCheck pd ["success_redirect", "failure_url", "cancel_redirect", "ipn_url"]
      | _ => .error (.typeError "object of this type has no len")

/-- Outcome of initiate_payment up to the network boundary (lines 58-121):
validation happens before anything is sent, so a validation error precludes
the request; requestSent stands for reaching the HTTP call. -/
inductive InitiateOutcome where
  | validationError : PyError → InitiateOutcome
  | requestSent : InitiateOutcome
deriving DecidableEq

/-- initiate_payment truncated at the network boundary: validate, then
send.  The HTTP transport itself is outside the embedding. -/
def initiate_payment (pd : List (String × PyValue)) : InitiateOutcome :=
  match _validate_payment_data pd with
  | .error e => .validationError e
  | .ok _ => .requestSent

/-- A concrete client with the sandbox default secret, as produced by the
constructor for the example configuration of the source. -/
def testApi : HeleerraAPI :=
  { base_url := "https://heleerra.com", merchant_key := "test_merchant_123",
    api_key := "test_api_key_abc", environment := "sandbox",
    webhook_secret := some "test_webhook_secret", timeout := 30 }

/-- A client state with no webhook secret, exercising the unconfigured
branch of the verifier. -/
def noSecretApi : HeleerraAPI :=
  { base_url := "https://heleerra.com", merchant_key := "m", api_key := "k",
    environment := "production", webhook_secret := none, timeout := 30 }


/-- Payment data for the C3 counterexample: amount, currency and reference
all valid, next to a URL field that does not start with http. -/
def c3pd : List (String × PyValue) :=
  [("payment_amount", .vInt 10), ("currency_code", .vStr "USD"), ("ref_trx", .vStr "T1"),
   ("success_redirect", .vStr "ftp://files.example.com/done")]

/-- Payment data for the C4 counterexample: a valid 3-letter alphabetic
currency with valid amount and reference, next to a URL field that does
not start with http. -/
def c4pd : List (String × PyValue) :=
  [("payment_amount", .vFloat 250), ("currency_code", .vStr "EUR"), ("ref_trx", .vStr "T2"),
   ("ipn_url", .vStr "mailto:ops@example.com")]

/-- Payment data passing every validator check. -/
def validPd : List (String × PyValue) :=
  [("payment_amount", .vFloat 250), ("currency_code", .vStr "USD"), ("ref_trx", .vStr "T1")]

/-- Payment data with a numeric amount below the threshold. -/
def lowAmountPd : List (String × PyValue) :=
  [("payment_amount", .vFloat (mkRat 1 2)), ("currency_code", .vStr "USD"),
   ("ref_trx", .vStr "T1")]

/-- Payment data whose currency code has the wrong length. -/
def badCurrencyPd : List (String × PyValue) :=
  [("payment_amount", .vInt 5), ("currency_code", .vStr "US"), ("ref_trx", .vStr "T3")]

/-- The webhook payload of the worked example in the specification. -/
def examplePayload : WebhookPayload :=
  { status := some "completed", data_ref_trx := some "T1", data_amount := some 10 }

/-- Correct signature for examplePayload under the sandbox default secret. -/
def exampleSignature : String :=
  "46a318065e6f7143f0cbdc201303119d3f0fe0fb6d5d9f82271f6c0f51a32c02"

/-- A payload whose status is none of the four recognized values. -/
def refundedPayload : WebhookPayload := { status := some "refunded" }

/-- Correct signature for refundedPayload under the sandbox default secret. -/
def refundedSignature : String :=
  "b67af698bd97c9407c9c34950d5c30c87ae3a583c3c2807af8f79a6fbb7ae70c"

/-- A payload with a completed status and no data block. -/
def completedPayload : WebhookPayload := { status := some "completed" }

/-- Correct signature for completedPayload under the sandbox default secret. -/
def completedSignature : String :=
  "3666e4566236656b9bb0ef72f5bbe1fe0adc95e2f444f9a6ae267e6317135ad4"

end Heleerra

namespace Heleerra

/-- SHA-256 agrees with the FIPS 180-4 test vector for the string abc. -/
example :
    bytesToHex (sha256 (strBytes "abc")) =
      "ba7816bf8f01cfea414140de5dae2223b00361a396177a9cb410ff61f20015ad" := by decide

/-- HMAC-SHA256 agrees with the public test vector for key key and the
quick-brown-fox message. -/
example :
    hmacSha256Hex "key" "The quick brown fox jumps over the lazy dog" =
      "f7bc83f430538424b13298e6aa6fb143ef4d59a14946175997479dbc2d1a3cd8" := by decide

/-- Every byte produced by sha256 is below 256. -/
theorem sha256_mem_lt (msg : List Nat) : ∀ b ∈ sha256 msg, b < 256 := by
  intro b hb
  simp only [sha256, List.mem_flatMap] at hb
  obtain ⟨wd, -, hmem⟩ := hb
  simp only [List.mem_cons, List.not_mem_nil, or_false] at hmem
  rcases hmem with rfl | rfl | rfl | rfl <;> exact Nat.mod_lt _ (by norm_num)

/-- Every byte produced by hmacSha256 is below 256. -/
theorem hmacSha256_mem_lt (key msg : List Nat) : ∀ b ∈ hmacSha256 key msg, b < 256 := by
  intro b hb
  exact sha256_mem_lt _ b hb

/-- Hex digits of values below 16 are ASCII. -/
theorem hexDigit_ascii : ∀ n < 16, (hexDigit n).toNat < 128 := by decide

/-- The hex rendering of a byte list is ASCII. -/
theorem strAscii_bytesToHex {bs : List Nat} (h : ∀ b ∈ bs, b < 256) :
    strAscii (bytesToHex bs) = true := by
  show (bs.flatMap byteToHex).all (fun c => c.toNat < 128) = true
  rw [List.all_eq_true]
  intro c hc
  rw [List.mem_flatMap] at hc
  obtain ⟨b, hb, hcb⟩ := hc
  have hb256 := h b hb
  simp only [byteToHex, List.mem_cons, List.not_mem_nil, or_false] at hcb
  rcases hcb with rfl | rfl
  · simpa using hexDigit_ascii (b / 16) (by omega)
  · simpa using hexDigit_ascii (b % 16) (by omega)

/-- The hex HMAC digest of any secret and payload is an ASCII string. -/
theorem strAscii_hmacHex (secret payload : String) :
    strAscii (hmacSha256Hex secret payload) = true :=
  strAscii_bytesToHex (hmacSha256_mem_lt _ _)

/-- An ASCII string is never equal to a non-ASCII string. -/
theorem ne_of_ascii_of_not_ascii {a b : String} (ha : strAscii a = true)
    (hb : strAscii b = false) : a ≠ b := by
  intro h
  rw [h, hb] at ha
  exact Bool.false_ne_true ha

/-- On two ASCII strings compare_digest returns their equality. -/
theorem compare_digest_ok {a b : String} (ha : strAscii a = true) (hb : strAscii b = true) :
    compare_digest a b = .ok (a == b) := by
  unfold compare_digest
  rw [ha, hb]
  simp

/-- Against a non-ASCII second argument compare_digest raises TypeError. -/
theorem compare_digest_err {a b : String} (hb : strAscii b = false) :
    compare_digest a b =
      .error "TypeError: comparing strings with non-ASCII characters is not supported" := by
  unfold compare_digest
  rw [hb]
  simp

/-- With a configured (non-falsy) secret, signature verification succeeds
exactly on the hex HMAC-SHA256 digest of the payload under that secret. -/
theorem verify_eq_iff (api : HeleerraAPI) (h : optStrFalsy api.webhook_secret = false)
    (payload sig : String) :
    api.verify_webhook_signature payload sig = true ↔
      sig = hmacSha256Hex (api.webhook_secret.getD "") payload := by
  have hdig := strAscii_hmacHex (api.webhook_secret.getD "") payload
  unfold HeleerraAPI.verify_webhook_signature HeleerraAPI.verifyAttempt
  rw [h]
  cases hsig : strAscii sig with
  | true =>
    rw [if_neg (by simp), compare_digest_ok hdig hsig]
    show (hmacSha256Hex (api.webhook_secret.getD "") payload == sig) = true ↔
      sig = hmacSha256Hex (api.webhook_secret.getD "") payload
    rw [beq_iff_eq]
    exact eq_comm
  | false =>
    have hne : sig ≠ hmacSha256Hex (api.webhook_secret.getD "") payload :=
      fun hh => ne_of_ascii_of_not_ascii hdig hsig hh.symm
    rw [if_neg (by simp), compare_digest_err hsig]
    show false = true ↔ sig = hmacSha256Hex (api.webhook_secret.getD "") payload
    exact iff_of_false (by simp) hne

/-- C1: with a configured secret, verify_webhook_signature returns true if
and only if the supplied signature equals the hex rendering of HMAC-SHA256
over the UTF-8 bytes of the payload keyed by that secret; consequently any
mutation of the signature makes it return false, and any mutation of the
payload that changes the digest (which a single-byte mutation does unless
it produced a SHA-256 collision) makes it return false. -/
theorem c1_signature_iff_hmac_hex (api : HeleerraAPI)
    (hsec : optStrFalsy api.webhook_secret = false) (payload sig : String) :
    (api.verify_webhook_signature payload sig = true ↔
      sig = hmacSha256Hex (api.webhook_secret.getD "") payload) ∧
    (∀ sig1 : String, api.verify_webhook_signature payload sig = true → sig1 ≠ sig →
      api.verify_webhook_signature payload sig1 = false) ∧
    (∀ payload1 : String, api.verify_webhook_signature payload sig = true →
      hmacSha256Hex (api.webhook_secret.getD "") payload1 ≠
        hmacSha256Hex (api.webhook_secret.getD "") payload →
      api.verify_webhook_signature payload1 sig = false) := by
  refine ⟨verify_eq_iff api hsec payload sig, ?_, ?_⟩
  · intro sig1 hv hne
    have hsig := (verify_eq_iff api hsec payload sig).mp hv
    cases hv1 : api.verify_webhook_signature payload sig1 with
    | false => rfl
    | true =>
      have h1 := (verify_eq_iff api hsec payload sig1).mp hv1
      exact absurd (h1.trans hsig.symm) hne
  · intro payload1 hv hdiff
    have hsig := (verify_eq_iff api hsec payload sig).mp hv
    cases hv1 : api.verify_webhook_signature payload1 sig with
    | false => rfl
    | true =>
      have h1 := (verify_eq_iff api hsec payload1 sig).mp hv1
      exact absurd (h1.symm.trans hsig) hdiff

/-- C1 witness: the sandbox-secret client accepts the correct digest of the
serialized empty payload. -/
theorem c1_witness :
    optStrFalsy testApi.webhook_secret = false ∧
    testApi.verify_webhook_signature "\x7b\x7d"
      "0b3f829e88eefb9dcfb71f54b02f0e8b0f18f9b667d23b9052d115f74df5727d" = true :=
  ⟨by decide,
   (c1_signature_iff_hmac_hex testApi (by decide) "\x7b\x7d"
      "0b3f829e88eefb9dcfb71f54b02f0e8b0f18f9b667d23b9052d115f74df5727d").1.mpr (by decide)⟩

end Heleerra

namespace Heleerra

/-- C2: when the x-signature header value does not verify against the
serialized payload, handle_webhook returns the invalid-signature error
result and produces no dispatch event: no environment branch is entered
and no status handler is invoked. -/
theorem c2_invalid_signature_short_circuit (api : HeleerraAPI) (payload : WebhookPayload)
    (headers : List (String × String))
    (h : api.verify_webhook_signature (json_dumps payload)
          (headersGet headers "x-signature" "") = false) :
    api.handle_webhook payload headers =
      ({ status := "error", message := "Invalid signature" }, []) := by
  simp only [HeleerraAPI.handle_webhook]
  rw [h, if_neg (by simp)]

/-- C2 witness: the empty payload with no headers (hence an empty signature)
is rejected with the invalid-signature error and no dispatch. -/
theorem c2_witness :
    testApi.handle_webhook {} [] =
      ({ status := "error", message := "Invalid signature" }, []) :=
  c2_invalid_signature_short_circuit testApi {} [] (by decide)

/-- C6: a signature-valid payload dispatched with x-environment sandbox
returns the fixed sandbox result and produces no production status-handler
event, whatever the payload status is. -/
theorem c6_sandbox_never_production (api : HeleerraAPI) (payload : WebhookPayload)
    (headers : List (String × String))
    (hsig : api.verify_webhook_signature (json_dumps payload)
            (headersGet headers "x-signature" "") = true)
    (henv : headersGet headers "x-environment" "production" = "sandbox") :
    api.handle_webhook payload headers =
      ({ status := "sandbox_processed", message := "Webhook processed in sandbox mode" },
       [.sandboxDispatch]) ∧
    (∀ e ∈ (api.handle_webhook payload headers).2,
      e ≠ WebhookEvent.processCompletedPayment ∧ e ≠ WebhookEvent.processFailedPayment ∧
      e ≠ WebhookEvent.processCancelledPayment ∧ e ≠ WebhookEvent.processExpiredPayment) := by
  have hmain : api.handle_webhook payload headers =
      ({ status := "sandbox_processed", message := "Webhook processed in sandbox mode" },
       [.sandboxDispatch]) := by
    simp only [HeleerraAPI.handle_webhook]
    rw [hsig, henv]
    rfl
  refine ⟨hmain, ?_⟩
  rw [hmain]
  intro e he
  simp only [List.mem_singleton] at he
  subst he
  exact ⟨by decide, by decide, by decide, by decide⟩

/-- C6 witness: the worked example payload with its correct signature and a
sandbox environment header takes the sandbox branch. -/
theorem c6_witness :
    testApi.handle_webhook examplePayload
        [("x-signature", exampleSignature), ("x-environment", "sandbox")] =
      ({ status := "sandbox_processed", message := "Webhook processed in sandbox mode" },
       [.sandboxDispatch]) :=
  (c6_sandbox_never_production testApi examplePayload
    [("x-signature", exampleSignature), ("x-environment", "sandbox")]
    (by decide) (by decide)).1

/-- C7: a signature-valid production payload whose status is none of the
four recognized values invokes no status handler yet returns the same
processed success result as a recognized status. -/
theorem c7_unknown_status_no_op (api : HeleerraAPI) (payload : WebhookPayload)
    (headers : List (String × String))
    (hsig : api.verify_webhook_signature (json_dumps payload)
            (headersGet headers "x-signature" "") = true)
    (henv : headersGet headers "x-environment" "production" ≠ "sandbox")
    (hst : payload.status.getD "unknown" ∉
            (["completed", "failed", "cancelled", "expired"] : List String)) :
    api.handle_webhook payload headers =
      ({ status := "processed", message := "Webhook processed successfully" },
       [.productionDispatch]) := by
  simp only [List.mem_cons, List.not_mem_nil, or_false, not_or] at hst
  obtain ⟨h1, h2, h3, h4⟩ := hst
  simp only [HeleerraAPI.handle_webhook]
  rw [hsig, if_pos rfl, if_neg (by simpa using henv)]
  simp only [HeleerraAPI._handle_production_webhook]
  rw [if_neg (by simpa using h1), if_neg (by simpa using h2),
      if_neg (by simpa using h3), if_neg (by simpa using h4)]

/-- C7 witness: a payload with status refunded, correctly signed and sent
to the production branch, is a logged no-op with the processed result. -/
theorem c7_witness :
    testApi.handle_webhook refundedPayload
        [("x-signature", refundedSignature), ("x-environment", "production")] =
      ({ status := "processed", message := "Webhook processed successfully" },
       [.productionDispatch]) :=
  c7_unknown_status_no_op testApi refundedPayload
    [("x-signature", refundedSignature), ("x-environment", "production")]
    (by decide) (by decide) (by decide)

/-- C10: for a signature-valid payload, any x-environment header value
other than exactly sandbox selects the production branch, the absent
header defaults to production, and exactly sandbox selects the sandbox
branch. -/
theorem c10_environment_dispatch (api : HeleerraAPI) (payload : WebhookPayload)
    (headers : List (String × String))
    (hsig : api.verify_webhook_signature (json_dumps payload)
            (headersGet headers "x-signature" "") = true) :
    (headersGet headers "x-environment" "production" ≠ "sandbox" →
      api.handle_webhook payload headers = api._handle_production_webhook payload) ∧
    (headers.find? (fun p => p.1 == "x-environment") = none →
      api.handle_webhook payload headers = api._handle_production_webhook payload) ∧
    (headersGet headers "x-environment" "production" = "sandbox" →
      api.handle_webhook payload headers = api._handle_sandbox_webhook payload) := by
  refine ⟨?_, ?_, ?_⟩
  · intro henv
    simp only [HeleerraAPI.handle_webhook]
    rw [hsig, if_pos rfl, if_neg (by simpa using henv)]
  · intro hfind
    have henv : headersGet headers "x-environment" "production" = "production" := by
      unfold headersGet
      rw [hfind]
    simp only [HeleerraAPI.handle_webhook]
    rw [hsig, if_pos rfl, henv, if_neg (by decide)]
  · intro henv
    simp only [HeleerraAPI.handle_webhook]
    rw [hsig, if_pos rfl, henv, if_pos (by decide)]

/-- C10 witness: an environment header value staging, different from
sandbox, routes a correctly signed payload to the production branch. -/
theorem c10_witness :
    testApi.handle_webhook completedPayload
        [("x-signature", completedSignature), ("x-environment", "staging")] =
      testApi._handle_production_webhook completedPayload :=
  (c10_environment_dispatch testApi completedPayload
    [("x-signature", completedSignature), ("x-environment", "staging")]
    (by decide)).1 (by decide)

end Heleerra

namespace Heleerra

/-- The required-fields loop either raises a ValueError or passes. -/
theorem requiredFieldCheck_cases (pd : List (String × PyValue)) (fs : List String) :
    (∃ msg, requiredFieldCheck pd fs = .error (.valueError msg)) ∨
      requiredFieldCheck pd fs = .ok () := by
  induction fs with
  | nil => exact Or.inr rfl
  | cons f rest ih =>
    unfold requiredFieldCheck
    cases hl : dictLookup pd f with
    | none => exact Or.inl ⟨_, rfl⟩
    | some v =>
      dsimp only
      by_cases hv : v.truthy = true
      · rw [if_pos hv]
        exact ih
      · rw [if_neg hv]
        exact Or.inl ⟨_, rfl⟩

/-- If some listed field is absent or falsy, the required-fields loop raises
a ValueError. -/
theorem requiredFieldCheck_errors (pd : List (String × PyValue)) (fs : List String)
    (h : fs.any (requiredFieldMissing pd) = true) :
    ∃ msg, requiredFieldCheck pd fs = .error (.valueError msg) := by
  induction fs with
  | nil => simp at h
  | cons f rest ih =>
    unfold requiredFieldCheck
    cases hl : dictLookup pd f with
    | none => exact ⟨_, rfl⟩
    | some v =>
      dsimp only
      by_cases hv : v.truthy = true
      · rw [if_pos hv]
        apply ih
        have hm : requiredFieldMissing pd f = false := by
          unfold requiredFieldMissing
          rw [hl]
          simpa using hv
        rw [List.any_cons, hm, Bool.false_or] at h
        exact h
      · rw [if_neg hv]
        exact ⟨_, rfl⟩

/-- If every listed field is present and truthy, the required-fields loop
passes. -/
theorem requiredFieldCheck_ok (pd : List (String × PyValue)) (fs : List String)
    (h : ∀ f ∈ fs, requiredFieldMissing pd f = false) :
    requiredFieldCheck pd fs = .ok () := by
  induction fs with
  | nil => rfl
  | cons f rest ih =>
    have hf := h f (by simp)
    unfold requiredFieldMissing at hf
    unfold requiredFieldCheck
    cases hl : dictLookup pd f with
    | none => rw [hl] at hf; simp at hf
    | some v =>
      dsimp only
      rw [hl] at hf
      have hv : v.truthy = true := by simpa using hf
      rw [if_pos hv]
      exact ih (fun g hg => h g (by simp [hg]))

/-- If every listed URL field is absent, falsy, or an http string, the URL
loop passes. -/
theorem urlFieldCheck_ok (pd : List (String × PyValue)) (fs : List String)
    (h : ∀ f ∈ fs, urlFieldOkOne pd f = true) :
    urlFieldCheck pd fs = .ok () := by
  induction fs with
  | nil => rfl
  | cons f rest ih =>
    have hf := h f (by simp)
    unfold urlFieldOkOne at hf
    unfold urlFieldCheck
    cases hl : dictLookup pd f with
    | none => exact ih (fun g hg => h g (by simp [hg]))
    | some v =>
      dsimp only
      rw [hl] at hf
      by_cases hv : v.truthy = true
      · rw [if_pos hv]
        cases v with
        | vStr s =>
          dsimp only
          have hs : strStartsWith s "http" = true := by simpa [hv] using hf
          rw [if_pos hs]
          exact ih (fun g hg => h g (by simp [hg]))
        | vInt n => simp [hv] at hf
        | vFloat q => simp [hv] at hf
        | vNone => simp [PyValue.truthy] at hv
      · rw [if_neg hv]
        exact ih (fun g hg => h g (by simp [hg]))

/-- A required-fields error is the validator result. -/
theorem validate_required_error (pd : List (String × PyValue)) (e : PyError)
    (herr : requiredFieldCheck pd ["payment_amount", "currency_code", "ref_trx"] = .error e) :
    _validate_payment_data pd = .error e := by
  unfold _validate_payment_data
  rw [herr]

/-- A numeric value at least one is truthy. -/
theorem truthy_of_numVal_ge_one {a : PyValue} (han : a.isNumber = true)
    (hav : 1 ≤ a.numVal) : a.truthy = true := by
  cases a with
  | vStr s => simp [PyValue.isNumber] at han
  | vNone => simp [PyValue.isNumber] at han
  | vInt n =>
    simp only [PyValue.numVal] at hav
    have hn : (1 : Int) ≤ n := by exact_mod_cast hav
    simp only [PyValue.truthy, bne_iff_ne, ne_eq]
    omega
  | vFloat q =>
    simp only [PyValue.numVal] at hav
    have : q ≠ 0 := by
      intro hh
      rw [hh] at hav
      norm_num at hav
    simpa [PyValue.truthy, bne_iff_ne] using this

/-- A string of length three is truthy. -/
theorem truthy_of_len3 {c : String} (hc3 : c.length = 3) :
    PyValue.truthy (.vStr c) = true := by
  have hne : c ≠ "" := by
    intro hh
    rw [hh] at hc3
    simp at hc3
  have hE : c.isEmpty = false := by
    cases hE : c.isEmpty with
    | false => rfl
    | true => exact absurd ((String.isEmpty_iff c).mp hE) hne
  simp [PyValue.truthy, hE]

/-- With valid amount, currency, reference and URL fields, the validator
passes. -/
theorem validate_passes (pd : List (String × PyValue)) (a : PyValue) (c : String) (r : PyValue)
    (ha : dictLookup pd "payment_amount" = some a) (han : a.isNumber = true)
    (hav : 1 ≤ a.numVal)
    (hc : dictLookup pd "currency_code" = some (.vStr c)) (hc3 : c.length = 3)
    (hca : pyIsAlpha c = true)
    (hr : dictLookup pd "ref_trx" = some r) (hrt : r.truthy = true)
    (hurl : urlFieldsOk pd = true) :
    _validate_payment_data pd = .ok () := by
  have hreq : requiredFieldCheck pd ["payment_amount", "currency_code", "ref_trx"] = .ok () := by
    apply requiredFieldCheck_ok
    intro f hf
    simp only [List.mem_cons, List.not_mem_nil, or_false] at hf
    rcases hf with rfl | rfl | rfl
    · unfold requiredFieldMissing
      rw [ha]
      simpa using truthy_of_numVal_ge_one han hav
    · unfold requiredFieldMissing
      rw [hc]
      simpa using truthy_of_len3 hc3
    · unfold requiredFieldMissing
      rw [hr]
      simpa using hrt
  have hcond1 : ¬(¬ a.isNumber = true ∨ a.numVal < 1) := by
    rintro (hbad | hbad)
    · exact hbad han
    · exact absurd hav (not_le.mpr hbad)
  have hcond2 : ¬(c.length ≠ 3 ∨ ¬ pyIsAlpha c = true) := by
    rintro (hbad | hbad)
    · exact hbad hc3
    · exact hbad hca
  have hurl2 : urlFieldCheck pd ["success_redirect", "failure_url", "cancel_redirect", "ipn_url"]
      = .ok () := urlFieldCheck_ok pd _ (List.all_eq_true.mp hurl)
  unfold _validate_payment_data
  rw [hreq]
  rw [ha, hc]
  simp only [Option.getD_some]
  rw [if_neg hcond1, if_neg hcond2]
  exact hurl2

end Heleerra

namespace Heleerra

/-- C3: every payment mapping with a numeric amount below 1.00 fails
validation with a ValueError; and with an amount at least 1.00, a valid
currency and reference, and URL fields absent or http-prefixed, validation
passes.  (The URL-fields condition is required: see the counterexample.) -/
theorem c3_amount_threshold (pd : List (String × PyValue)) :
    (∀ a : PyValue, dictLookup pd "payment_amount" = some a → a.isNumber = true →
      a.numVal < 1 → ∃ msg, _validate_payment_data pd = .error (.valueError msg)) ∧
    (∀ (a : PyValue) (c : String) (r : PyValue),
      dictLookup pd "payment_amount" = some a → a.isNumber = true → 1 ≤ a.numVal →
      dictLookup pd "currency_code" = some (.vStr c) → c.length = 3 → pyIsAlpha c = true →
      dictLookup pd "ref_trx" = some r → r.truthy = true → urlFieldsOk pd = true →
      _validate_payment_data pd = .ok ()) := by
  constructor
  · intro a ha han hav
    rcases requiredFieldCheck_cases pd ["payment_amount", "currency_code", "ref_trx"] with
      ⟨msg, hmsg⟩ | hok
    · exact ⟨msg, validate_required_error pd _ hmsg⟩
    · refine ⟨"Payment amount must be a number and at least 1.00", ?_⟩
      unfold _validate_payment_data
      rw [hok, ha]
      simp only [Option.getD_some]
      rw [if_pos (Or.inr hav)]
  · intro a c r ha han hav hc hc3 hca hr hrt hurl
    exact validate_passes pd a c r ha han hav hc hc3 hca hr hrt hurl

/-- C3 counterexample: a mapping with valid amount, currency and reference
but a non-http URL field fails validation, refuting the claim that amount,
currency and reference validity alone make validation pass. -/
theorem c3_counterexample :
    ((dictLookup c3pd "payment_amount").getD .vNone).isNumber = true ∧
    1 ≤ ((dictLookup c3pd "payment_amount").getD .vNone).numVal ∧
    dictLookup c3pd "currency_code" = some (.vStr "USD") ∧
    "USD".length = 3 ∧ pyIsAlpha "USD" = true ∧
    dictLookup c3pd "ref_trx" = some (.vStr "T1") ∧ PyValue.truthy (.vStr "T1") = true ∧
    _validate_payment_data c3pd =
      .error (.valueError "success_redirect must be a valid URL") :=
  ⟨by decide, by decide, by decide, by decide, by decide, by decide, by decide, by rfl⟩

/-- C3 witness: an amount of one half fails, an amount of 250 with valid
currency and reference and no URL fields passes. -/
theorem c3_witness :
    (∃ msg, _validate_payment_data lowAmountPd = .error (.valueError msg)) ∧
    _validate_payment_data validPd = .ok () :=
  ⟨(c3_amount_threshold lowAmountPd).1 (.vFloat (mkRat 1 2)) (by decide) (by decide) (by decide),
   (c3_amount_threshold validPd).2 (.vFloat 250) "USD" (.vStr "T1") (by decide) (by decide)
     (by decide) (by decide) (by decide) (by decide) (by decide) (by decide) (by decide)⟩

/-- C4: with valid amount and reference, URL fields absent or http-prefixed
and a 3-letter alphabetic currency string, validation passes; a string
currency of any other length or with non-alphabetic content makes
validation fail with a ValueError.  (The URL-fields condition on the pass
side is required: see the counterexample.) -/
theorem c4_currency_shape (pd : List (String × PyValue)) :
    (∀ (a r : PyValue) (c : String),
      dictLookup pd "payment_amount" = some a → a.isNumber = true → 1 ≤ a.numVal →
      dictLookup pd "ref_trx" = some r → r.truthy = true →
      dictLookup pd "currency_code" = some (.vStr c) → c.length = 3 → pyIsAlpha c = true →
      urlFieldsOk pd = true → _validate_payment_data pd = .ok ()) ∧
    (∀ c : String, dictLookup pd "currency_code" = some (.vStr c) →
      c.length ≠ 3 ∨ pyIsAlpha c = false →
      ∃ msg, _validate_payment_data pd = .error (.valueError msg)) := by
  constructor
  · intro a r c ha han hav hr hrt hc hc3 hca hurl
    exact validate_passes pd a c r ha han hav hc hc3 hca hr hrt hurl
  · intro c hc hbad
    rcases requiredFieldCheck_cases pd ["payment_amount", "currency_code", "ref_trx"] with
      ⟨msg, hmsg⟩ | hok
    · exact ⟨msg, validate_required_error pd _ hmsg⟩
    · by_cases hnum : ¬ ((dictLookup pd "payment_amount").getD .vNone).isNumber = true ∨
          ((dictLookup pd "payment_amount").getD .vNone).numVal < 1
      · refine ⟨"Payment amount must be a number and at least 1.00", ?_⟩
        unfold _validate_payment_data
        rw [hok, if_pos hnum]
      · refine ⟨"Currency code must be a 3-letter code (e.g., USD)", ?_⟩
        have hbad2 : c.length ≠ 3 ∨ ¬ pyIsAlpha c = true :=
          hbad.imp id (fun hh => by simp [hh])
        unfold _validate_payment_data
        rw [hok, if_neg hnum, hc]
        simp only [Option.getD_some]
        rw [if_pos hbad2]

/-- C4 counterexample: a 3-letter alphabetic currency with valid amount and
reference still fails validation when a URL field is not http-prefixed,
refuting the claim that such a currency code alone makes validation pass. -/
theorem c4_counterexample :
    dictLookup c4pd "currency_code" = some (.vStr "EUR") ∧
    "EUR".length = 3 ∧ pyIsAlpha "EUR" = true ∧
    ((dictLookup c4pd "payment_amount").getD .vNone).isNumber = true ∧
    1 ≤ ((dictLookup c4pd "payment_amount").getD .vNone).numVal ∧
    dictLookup c4pd "ref_trx" = some (.vStr "T2") ∧ PyValue.truthy (.vStr "T2") = true ∧
    _validate_payment_data c4pd =
      .error (.valueError "ipn_url must be a valid URL") :=
  ⟨by decide, by decide, by decide, by decide, by decide, by decide, by decide, by rfl⟩

/-- C4 witness: the 2-letter currency US fails with a ValueError; the valid
mapping with USD passes. -/
theorem c4_witness :
    (∃ msg, _validate_payment_data badCurrencyPd = .error (.valueError msg)) ∧
    _validate_payment_data validPd = .ok () :=
  ⟨(c4_currency_shape badCurrencyPd).2 "US" (by decide) (Or.inl (by decide)),
   (c4_currency_shape validPd).1 (.vFloat 250) (.vStr "T1") "USD" (by decide) (by decide)
     (by decide) (by decide) (by decide) (by decide) (by decide) (by decide) (by decide)⟩

/-- C5: a payment mapping in which some required field (payment_amount,
currency_code, ref_trx) is absent or falsy fails validation with a
ValueError, and initiate_payment therefore stops with that validation
error before any request is sent. -/
theorem c5_required_fields (pd : List (String × PyValue))
    (h : (["payment_amount", "currency_code", "ref_trx"].any (requiredFieldMissing pd)) = true) :
    ∃ msg, _validate_payment_data pd = .error (.valueError msg) ∧
      initiate_payment pd = .validationError (.valueError msg) := by
  obtain ⟨msg, hmsg⟩ := requiredFieldCheck_errors pd _ h
  have hv : _validate_payment_data pd = .error (.valueError msg) :=
    validate_required_error pd _ hmsg
  refine ⟨msg, hv, ?_⟩
  unfold initiate_payment
  rw [hv]

/-- C5 witness: the empty mapping is rejected before the request is sent. -/
theorem c5_witness :
    (["payment_amount", "currency_code", "ref_trx"].any (requiredFieldMissing [])) = true ∧
    ∃ msg, _validate_payment_data [] = .error (.valueError msg) ∧
      initiate_payment [] = .validationError (.valueError msg) :=
  ⟨by decide, c5_required_fields [] (by decide)⟩

end Heleerra

namespace Heleerra

/-- C8: verify_webhook_signature is a total Boolean function: it returns
false when no webhook secret is configured, and it returns false whenever
the try-block raises (the only raising operation being compare_digest on a
non-ASCII argument); no exception escapes to the caller. -/
theorem c8_verify_never_raises (api : HeleerraAPI) (payload sig : String) :
    (optStrFalsy api.webhook_secret = true →
      api.verify_webhook_signature payload sig = false) ∧
    (∀ e, api.verifyAttempt payload sig = .error e →
      api.verify_webhook_signature payload sig = false) := by
  constructor
  · intro h
    unfold HeleerraAPI.verify_webhook_signature
    rw [h, if_pos rfl]
  · intro e he
    unfold HeleerraAPI.verify_webhook_signature
    rw [he]
    by_cases hf : optStrFalsy api.webhook_secret = true
    · rw [if_pos hf]
    · rw [if_neg hf]

/-- C8 witness: the secretless client rejects, and a client faced with a
non-ASCII signature has its TypeError converted to false. -/
theorem c8_witness :
    noSecretApi.verify_webhook_signature "payload" "sig" = false ∧
    testApi.verify_webhook_signature "payload" "é" = false :=
  ⟨(c8_verify_never_raises noSecretApi "payload" "sig").1 (by decide),
   (c8_verify_never_raises testApi "payload" "é").2
     "TypeError: comparing strings with non-ASCII characters is not supported" (by rfl)⟩

/-- C9: every successfully constructed client carries a non-empty webhook
secret: a falsy caller-supplied secret is defaulted per environment
(test_webhook_secret for sandbox, webhook_secret otherwise), so the
unconfigured-secret branch of the verifier is unreachable and verification
always proceeds to the digest comparison. -/
theorem c9_constructed_secret_configured (mkey akey env : String) (ws : Option String)
    (t : Nat) (api : HeleerraAPI) (h : HeleerraAPI.init mkey akey env ws t = .ok api) :
    ∃ s, api.webhook_secret = some s ∧ s ≠ "" ∧
      optStrFalsy api.webhook_secret = false ∧
      (optStrFalsy ws = true →
        s = if pyLower env == "sandbox" then "test_webhook_secret" else "webhook_secret") ∧
      ∀ payload sig, api.verify_webhook_signature payload sig =
        match api.verifyAttempt payload sig with
        | .ok b => b
        | .error _ => false := by
  unfold HeleerraAPI.init at h
  by_cases henv : (pyLower env != "sandbox" && pyLower env != "production") = true
  · rw [if_pos henv] at h
    exact absurd h (by simp)
  · rw [if_neg henv] at h
    injection h with h
    subst h
    by_cases hfal : optStrFalsy ws = true
    · refine ⟨if pyLower env == "sandbox" then "test_webhook_secret" else "webhook_secret",
        ?_, ?_, ?_, ?_, ?_⟩
      · show (if optStrFalsy ws then some _ else ws) = _
        rw [if_pos hfal]
      · by_cases hsand : (pyLower env == "sandbox") = true
        · rw [if_pos hsand]; decide
        · rw [if_neg hsand]; decide
      · show optStrFalsy (if optStrFalsy ws then some _ else ws) = false
        rw [if_pos hfal]
        by_cases hsand : (pyLower env == "sandbox") = true
        · rw [if_pos hsand]; rfl
        · rw [if_neg hsand]; rfl
      · intro _; rfl
      · intro payload sig
        unfold HeleerraAPI.verify_webhook_signature
        rw [if_neg ?hc]
        case hc =>
          show ¬ optStrFalsy (if optStrFalsy ws then some _ else ws) = true
          rw [if_pos hfal]
          by_cases hsand : (pyLower env == "sandbox") = true
          · rw [if_pos hsand]; decide
          · rw [if_neg hsand]; decide
    · cases ws with
      | none => simp [optStrFalsy] at hfal
      | some s =>
        have hs : s.isEmpty = false := by
          cases hE : s.isEmpty with
          | false => rfl
          | true => exact absurd (show optStrFalsy (some s) = true from hE) hfal
        have hne : s ≠ "" := by
          intro hh
          subst hh
          exact hfal rfl
        refine ⟨s, ?_, hne, ?_, ?_, ?_⟩
        · show (if optStrFalsy (some s) then some _ else some s) = some s
          rw [if_neg hfal]
        · show optStrFalsy (if optStrFalsy (some s) then some _ else some s) = false
          rw [if_neg hfal]
          exact hs
        · intro hbad; exact absurd hbad hfal
        · intro payload sig
          unfold HeleerraAPI.verify_webhook_signature
          rw [if_neg ?hc2]
          case hc2 =>
            show ¬ optStrFalsy (if optStrFalsy (some s) then some _ else some s) = true
            rw [if_neg hfal]
            simp [optStrFalsy, hs]

/-- C9 witness: the default sandbox construction yields testApi, whose
secret is the non-empty sandbox default. -/
theorem c9_witness :
    ∃ s, testApi.webhook_secret = some s ∧ s ≠ "" ∧
      optStrFalsy testApi.webhook_secret = false ∧
      (optStrFalsy (none : Option String) = true →
        s = if pyLower "sandbox" == "sandbox" then "test_webhook_secret"
            else "webhook_secret") ∧
      ∀ payload sig, testApi.verify_webhook_signature payload sig =
        match testApi.verifyAttempt payload sig with
        | .ok b => b
        | .error _ => false :=
  c9_constructed_secret_configured "test_merchant_123" "test_api_key_abc" "sandbox"
    none 30 testApi (by rfl)

end Heleerra
